import Mathlib

set_option autoImplicit false

/-!
Verification of the Stack Lifecycle Controller of the Geostacks repository
(src/1-auto/app.py).  The four Flask handlers (`list_handler`, `create_handler`,
`get_handler`, `delete_handler`) are embedded as pure functions over an explicit
engine state.  The external provisioning engine (the pulumi automation API) is
the sole system of record; its state is a list of stack records and its
operations are modelled from the collaborator interface the spec describes
(spec section 6), with the nondeterministic outcomes of `up` / `destroy`
(cloud errors, concurrent updates) supplied as explicit inputs.
-/

namespace Geostacks

/-- One stack record held by the provisioning engine: its unique `name`, its
configuration values (set by `stack.set_config`), and its outputs map
(populated by a successful `stack.up`; the program of app.py exports exactly
one output, `website_url`). -/
structure StackRecord where
  name : String
  config : List (String × String)
  outputs : List (String × String)
  deriving DecidableEq, Repr

/-- The state of the provisioning engine for the fixed project namespace
`PROJECT_NAME = "Geostacks"`: the list of stack records it currently holds. -/
structure EngineState where
  records : List StackRecord
  deriving DecidableEq, Repr

/-- The distinguishable error kinds raised by the engine, mirroring
`auto.StackAlreadyExistsError`, `auto.StackNotFoundError`,
`auto.ConcurrentUpdateError` and any other Python exception (carried as its
message string). -/
inductive EngineError where
  | stackAlreadyExists
  | stackNotFound
  | concurrentUpdate
  | other (msg : String)
  deriving DecidableEq, Repr

/-- The message `str(exn)` of an engine error, as rendered by the handlers'
generic `except Exception` branches. -/
def EngineError.msg : EngineError → String
  | .stackAlreadyExists => "StackAlreadyExistsError"
  | .stackNotFound => "StackNotFoundError"
  | .concurrentUpdate => "ConcurrentUpdateError"
  | .other m => m

/-- Outcome of the engine applying the resource graph (`stack.up`): either it
fully succeeds, computing the `website_url` output value, or it fails with
some cloud / engine error. -/
inductive UpOutcome where
  | ok (url : String)
  | enginefail (msg : String)
  deriving DecidableEq, Repr

/-- Outcome of the engine tearing a stack down (`stack.destroy`): success,
rejection because an update or destroy is already in progress, or any other
teardown failure. -/
inductive DestroyOutcome where
  | ok
  | concurrent
  | enginefail (msg : String)
  deriving DecidableEq, Repr

/-- First stack record with the given name (the engine keeps names unique, so
this is the record, when present). -/
def findStack (n : String) : List StackRecord → Option StackRecord
  | [] => none
  | r :: rs => if r.name = n then some r else findStack n rs

/-- Record update keyed by name, preserving every other record. -/
def updateStack (n : String) (g : StackRecord → StackRecord) :
    List StackRecord → List StackRecord
  | [] => []
  | r :: rs => (if r.name = n then g r else r) :: updateStack n g rs

/-- Removal of every record with the given name. -/
def removeAllStack (n : String) : List StackRecord → List StackRecord
  | [] => []
  | r :: rs => if r.name = n then removeAllStack n rs else r :: removeAllStack n rs

/-- Lookup in an outputs / config map; `none` is Python's `KeyError`. -/
def lookupOutput (k : String) : List (String × String) → Option String
  | [] => none
  | p :: ps => if p.1 = k then some p.2 else lookupOutput k ps

def EngineState.find (st : EngineState) (n : String) : Option StackRecord :=
  findStack n st.records

/-- Modelled from the spec: `createStack(project, name, graphFn)` of the
Provisioning Engine Client (spec section 6), the semantics of
`auto.create_stack` in app.py line 180.  The handler passes
`request.json.get('id')`, which is `None` when the field is missing; the
engine rejects a missing or empty name (spec section 4.1: `name` must be a
non-empty identifier), raises `StackAlreadyExistsError` when a stack with
that name already exists, and otherwise registers a fresh record with no
outputs yet. -/
def create_stack (name : Option String) (st : EngineState) :
    Except EngineError (String × EngineState) :=
  match name with
  | none => .error (.other "stack name must be provided")
  | some n =>
    if n = "" then .error (.other "invalid empty stack name")
    else
      match st.find n with
      | some _ => .error .stackAlreadyExists
      | none => .ok (n, ⟨st.records ++ [⟨n, [], []⟩]⟩)

/-- `stack.set_config(key, auto.ConfigValue(value))` (app.py line 183):
appends the configuration value on the stack's record. -/
def set_config (n k v : String) (st : EngineState) : EngineState :=
  ⟨updateStack n (fun r => { r with config := r.config ++ [(k, v)] }) st.records⟩

/-- Modelled from the spec: applying the resource graph (`stack.up`, app.py
line 185).  On success the program of `create_pulumi_program` has exported
exactly the `website_url` output (app.py line 159), which becomes the stack's
outputs map; on failure the record keeps the outputs it had (no rollback,
spec section 4.1). -/
def stack_up (n : String) (out : UpOutcome) (st : EngineState) :
    Except EngineError (List (String × String) × EngineState) :=
  match out with
  | .ok url =>
    let outs := [("website_url", url)]
    .ok (outs, ⟨updateStack n (fun r => { r with outputs := outs }) st.records⟩)
  | .enginefail m => .error (.other m)

/-- Modelled from the spec: `selectStack(project, name, noopGraphFn)` of the
Provisioning Engine Client (`auto.select_stack`, app.py lines 197 and 217):
raises `StackNotFoundError` when no stack with that name exists, and performs
no mutation (the program passed is a no-op). -/
def select_stack (n : String) (st : EngineState) : Except EngineError Unit :=
  match st.find n with
  | some _ => .ok ()
  | none => .error .stackNotFound

/-- `stack.outputs()` (app.py line 201): reads the current outputs map of the
stack; a read-side engine failure is injected as `fault`. -/
def stack_outputs (n : String) (fault : Option String) (st : EngineState) :
    Except EngineError (List (String × String)) :=
  match fault with
  | some m => .error (.other m)
  | none =>
    match st.find n with
    | some r => .ok r.outputs
    | none => .error .stackNotFound

/-- Modelled from the spec: `destroyStack(stack)` (`stack.destroy`, app.py
line 221): tears down every resource of the stack (its outputs are gone) but
keeps the bookkeeping record; raises `ConcurrentUpdateError` when an update
or destroy is already in progress, and any other teardown failure as a
generic error. -/
def stack_destroy (n : String) (out : DestroyOutcome) (st : EngineState) :
    Except EngineError EngineState :=
  match out with
  | .ok => .ok ⟨updateStack n (fun r => { r with outputs := [] }) st.records⟩
  | .concurrent => .error .concurrentUpdate
  | .enginefail m => .error (.other m)

/-- `stack.workspace.remove_stack(stack_name)` (app.py line 222): removes the
stack's bookkeeping record from the engine. -/
def remove_stack (n : String) (st : EngineState) : EngineState :=
  ⟨removeAllStack n st.records⟩

/-- `ws.list_stacks()` (app.py line 166): the names of every stack in the
project namespace, in the order the engine yields them. -/
def list_stacks (st : EngineState) : List String :=
  st.records.map (fun r => r.name)

/-- The body of an HTTP response, as the handlers build it with `jsonify` /
`make_response`. -/
inductive Body where
  | ids (names : List String)
  | site (id url : String)
  | message (text : String)
  | errorText (text : String)
  deriving DecidableEq, Repr

/-- An HTTP response: status code and body. -/
structure Response where
  status : Nat
  body : Body
  deriving DecidableEq, Repr

/-- The JSON body of a POST /sites request: `request.json.get('id')` and
`request.json.get('username')`, each `None` when the field is missing. -/
structure CreateReq where
  id : Option String
  username : Option String
  deriving DecidableEq, Repr

/-- Python's rendering of the possibly-missing stack name inside the 409
message f-string (a missing name prints as `None`). -/
def optName : Option String → String
  | none => "None"
  | some s => s

/-- list_handler (app.py lines 161-169): returns the stack names, or a 500 on
any engine failure while constructing the workspace or listing (injected as
`fault`). -/
def list_handler (fault : Option String) (st : EngineState) : Response :=
  match fault with
  | some m => ⟨500, .errorText m⟩
  | none => ⟨200, .ids (list_stacks st)⟩

/-- The try-block of create_handler (app.py lines 176-186): create the stack,
set the region config, run `up`, read the `website_url` output.  Returns the
result or the first error raised, together with the engine state at that
point (a record created before a failing `up` persists). -/
def create_run (id : Option String) (up : UpOutcome) (st : EngineState) :
    Except EngineError (String × String) × EngineState :=
  match create_stack id st with
  | .error e => (.error e, st)
  | .ok (n, st1) =>
    let st2 := set_config n "aws:region" "us-west-2" st1
    match stack_up n up st2 with
    | .error e => (.error e, st2)
    | .ok (outs, st3) =>
      match lookupOutput "website_url" outs with
      | some url => (.ok (n, url), st3)
      | none => (.error (.other "KeyError: website_url"), st3)

/-- create_handler (app.py lines 171-190): 200 with `{id, url}` on success,
409 on `StackAlreadyExistsError`, 500 on any other exception. -/
def create_handler (req : CreateReq) (up : UpOutcome) (st : EngineState) :
    Response × EngineState :=
  match create_run req.id up st with
  | (.ok (n, url), st1) => (⟨200, .site n url⟩, st1)
  | (.error .stackAlreadyExists, st1) =>
    (⟨409, .errorText ("Stack " ++ optName req.id ++ " already exists")⟩, st1)
  | (.error e, st1) => (⟨500, .errorText e.msg⟩, st1)

/-- The try-block of get_handler (app.py lines 196-203): select the stack
with a no-op program, read its outputs, index `website_url` (a missing key is
Python's `KeyError`, a generic exception). -/
def get_run (id : String) (fault : Option String) (st : EngineState) :
    Except EngineError String :=
  match select_stack id st with
  | .error e => .error e
  | .ok _ =>
    match stack_outputs id fault st with
    | .error e => .error e
    | .ok outs =>
      match lookupOutput "website_url" outs with
      | some url => .ok url
      | none => .error (.other "KeyError: website_url")

/-- get_handler (app.py lines 192-208): 200 with `{id, url}` on success, 404
on `StackNotFoundError`, 500 on any other exception.  No engine mutation
happens on this path, so the state is returned unchanged. -/
def get_handler (id : String) (fault : Option String) (st : EngineState) :
    Response × EngineState :=
  match get_run id fault st with
  | .ok url => (⟨200, .site id url⟩, st)
  | .error .stackNotFound =>
    (⟨404, .errorText ("stack " ++ id ++ " does not exist")⟩, st)
  | .error e => (⟨500, .errorText e.msg⟩, st)

/-- The try-block of delete_handler (app.py lines 216-223): select the stack,
destroy its resources, remove its bookkeeping record.  Returns the engine
state reached (unchanged record set whenever destroy raised). -/
def delete_run (id : String) (out : DestroyOutcome) (st : EngineState) :
    Except EngineError EngineState :=
  match select_stack id st with
  | .error e => .error e
  | .ok _ =>
    match stack_destroy id out st with
    | .error e => .error e
    | .ok st1 => .ok (remove_stack id st1)

/-- delete_handler (app.py lines 213-229): 200 ack on success, 404 on
`StackNotFoundError`, 409 on `ConcurrentUpdateError`, 500 on any other
exception (in which case the record set is as the try-block left it). -/
def delete_handler (id : String) (out : DestroyOutcome) (st : EngineState) :
    Response × EngineState :=
  match delete_run id out st with
  | .ok st1 =>
    (⟨200, .message ("Stack " ++ id ++ " resources successfully removed!")⟩, st1)
  | .error .stackNotFound =>
    (⟨404, .errorText ("Stack " ++ id ++ " does not exist")⟩, st)
  | .error .concurrentUpdate =>
    (⟨409, .errorText ("Stack " ++ id ++ " already has update in progress")⟩, st)
  | .error e => (⟨500, .errorText e.msg⟩, st)

/-! Lemmas about the record-list primitives. -/

lemma findStack_append (n : String) (l l' : List StackRecord)
    (h : findStack n l = none) : findStack n (l ++ l') = findStack n l' := by
  induction l with
  | nil => simp
  | cons r rs ih =>
    by_cases hr : r.name = n
    · simp [findStack, hr] at h
    · simp only [findStack, hr, if_false] at h
      simpa [findStack, hr] using ih h

lemma findStack_updateStack (n m : String) (g : StackRecord → StackRecord)
    (hg : ∀ r, (g r).name = r.name) (l : List StackRecord) :
    findStack m (updateStack n g l) =
      (findStack m l).map (fun r => if r.name = n then g r else r) := by
  induction l with
  | nil => rfl
  | cons r rs ih =>
    have hname : (if r.name = n then g r else r).name = r.name := by
      by_cases hrn : r.name = n <;> simp [hrn, hg]
    simp only [updateStack, findStack, hname]
    by_cases hm : r.name = m
    · simp [hm]
    · simp [hm, ih]

lemma findStack_removeAllStack_self (n : String) (l : List StackRecord) :
    findStack n (removeAllStack n l) = none := by
  induction l with
  | nil => rfl
  | cons r rs ih =>
    by_cases hr : r.name = n
    · simpa [removeAllStack, hr] using ih
    · simpa [removeAllStack, findStack, hr] using ih

/-- The engine state reached by a successful create of a fresh, valid name:
the fresh record, with the region config set and the `website_url` output
computed by `up`. -/
lemma create_handler_success (n : String) (u : Option String) (url : String)
    (st : EngineState) (hn : n ≠ "") (habs : st.find n = none) :
    create_handler ⟨some n, u⟩ (.ok url) st =
      (⟨200, .site n url⟩,
       ⟨updateStack n (fun r => { r with outputs := [("website_url", url)] })
          (updateStack n
            (fun r => { r with config := r.config ++ [("aws:region", "us-west-2")] })
            (st.records ++ [⟨n, [], []⟩]))⟩) := by
  simp [create_handler, create_run, create_stack, habs, hn, set_config, stack_up,
    lookupOutput]

/-- After a successful create of a fresh name, the engine holds exactly that
record, with the `website_url` output. -/
lemma find_after_create (n : String) (u : Option String) (url : String)
    (st : EngineState) (hn : n ≠ "") (habs : st.find n = none) :
    ((create_handler ⟨some n, u⟩ (.ok url) st).2).find n =
      some ⟨n, [("aws:region", "us-west-2")], [("website_url", url)]⟩ := by
  rw [create_handler_success n u url st hn habs]
  have hfind : findStack n st.records = none := habs
  simp [EngineState.find, findStack_updateStack,
    findStack_append n st.records _ hfind, findStack]

/-- C9: get performs no mutating engine operation: for every stack name,
injected read outcome and engine state, the engine state after `get_handler`
is exactly the state before, so calling get any number of times leaves every
stack's outputs and resources unchanged. -/
theorem get_no_side_effects (n : String) (fault : Option String) (st : EngineState) :
    (get_handler n fault st).2 = st := by
  unfold get_handler
  cases h : get_run n fault st with
  | ok url => rfl
  | error e => cases e <;> rfl

/-- C8: a create request whose name field is missing or empty does not
succeed (the engine rejects the name, surfaced as a 500) and creates no
stack: the engine state is unchanged. -/
theorem create_requires_nonempty_name (req : CreateReq) (up : UpOutcome)
    (st : EngineState) (h : req.id = none ∨ req.id = some "") :
    (create_handler req up st).1.status = 500 ∧ (create_handler req up st).2 = st := by
  rcases h with h | h <;> simp [create_handler, create_run, create_stack, h]

theorem create_requires_nonempty_name_witness :
    ((create_handler ⟨none, some "alice"⟩ (.ok "http://web") ⟨[]⟩).1.status = 500 ∧
      (create_handler ⟨none, some "alice"⟩ (.ok "http://web") ⟨[]⟩).2 = ⟨[]⟩) ∧
    ((create_handler ⟨some "", some "alice"⟩ (.ok "http://web") ⟨[]⟩).1.status = 500 ∧
      (create_handler ⟨some "", some "alice"⟩ (.ok "http://web") ⟨[]⟩).2 = ⟨[]⟩) :=
  ⟨create_requires_nonempty_name ⟨none, some "alice"⟩ (.ok "http://web") ⟨[]⟩
      (Or.inl rfl),
   create_requires_nonempty_name ⟨some "", some "alice"⟩ (.ok "http://web") ⟨[]⟩
      (Or.inr rfl)⟩

/-- C6: get of a name with no stack in the engine fails with 404 NotFound,
whatever read outcome is injected; any other read failure of an existing
stack is surfaced as a 500 internal failure. -/
theorem get_contract (n : String) (fault : Option String) (st : EngineState) :
    (st.find n = none →
      get_handler n fault st =
        (⟨404, .errorText ("stack " ++ n ++ " does not exist")⟩, st)) ∧
    ((st.find n).isSome → ∀ m, fault = some m →
      get_handler n fault st = (⟨500, .errorText m⟩, st)) := by
  constructor
  · intro habs
    simp [get_handler, get_run, select_stack, habs]
  · intro hex m hm
    obtain ⟨r, hr⟩ := Option.isSome_iff_exists.mp hex
    simp [get_handler, get_run, select_stack, stack_outputs, hr, hm, EngineError.msg]

theorem get_contract_witness :
    (get_handler "ghost" none ⟨[]⟩ =
      (⟨404, .errorText ("stack " ++ "ghost" ++ " does not exist")⟩, ⟨[]⟩)) ∧
    (get_handler "alice" (some "read timeout") ⟨[⟨"alice", [], []⟩]⟩ =
      (⟨500, .errorText "read timeout"⟩, ⟨[⟨"alice", [], []⟩]⟩)) :=
  ⟨(get_contract "ghost" none ⟨[]⟩).1 rfl,
   (get_contract "alice" (some "read timeout") ⟨[⟨"alice", [], []⟩]⟩).2
      (by decide) "read timeout" rfl⟩

/-- C1: the create contract: when a stack with the requested name already
exists, create fails with a 409 conflict; when the name is fresh but the
engine fails while applying the resource graph, create fails with a 500
internal failure; otherwise create succeeds with 200 and returns the pair of
the name and the computed `website_url` output. -/
theorem create_contract (req : CreateReq) (n : String) (up : UpOutcome)
    (st : EngineState) (hid : req.id = some n) (hn : n ≠ "") :
    ((st.find n).isSome → (create_handler req up st).1.status = 409) ∧
    (st.find n = none → ∀ m, up = .enginefail m →
      (create_handler req up st).1.status = 500) ∧
    (st.find n = none → ∀ url, up = .ok url →
      (create_handler req up st).1 = ⟨200, .site n url⟩) := by
  refine ⟨?_, ?_, ?_⟩
  · intro hex
    obtain ⟨r, hr⟩ := Option.isSome_iff_exists.mp hex
    simp [create_handler, create_run, create_stack, hid, hn, hr]
  · intro habs m hm
    subst hm
    simp [create_handler, create_run, create_stack, stack_up, hid, hn, habs,
      EngineError.msg]
  · intro habs url hu
    subst hu
    simp [create_handler, create_run, create_stack, set_config, stack_up,
      lookupOutput, hid, hn, habs]

theorem create_contract_witness :
    ((create_handler ⟨some "alice", some "a"⟩ (.ok "http://web") ⟨[]⟩).1 =
      ⟨200, .site "alice" "http://web"⟩) ∧
    ((create_handler ⟨some "alice", some "a"⟩ (.ok "http://web")
        ⟨[⟨"alice", [], []⟩]⟩).1.status = 409) ∧
    ((create_handler ⟨some "alice", some "a"⟩ (.enginefail "boom") ⟨[]⟩).1.status
      = 500) :=
  ⟨(create_contract ⟨some "alice", some "a"⟩ "alice" (.ok "http://web") ⟨[]⟩ rfl
      (by decide)).2.2 rfl "http://web" rfl,
   (create_contract ⟨some "alice", some "a"⟩ "alice" (.ok "http://web")
      ⟨[⟨"alice", [], []⟩]⟩ rfl (by decide)).1 (by decide),
   (create_contract ⟨some "alice", some "a"⟩ "alice" (.enginefail "boom") ⟨[]⟩ rfl
      (by decide)).2.1 rfl "boom" rfl⟩

/-- C2: the delete contract: deleting a name with no stack fails with 404
NotFound; when an update or destroy is already in progress the call fails
immediately with 409 and changes nothing (no queuing, no retry); when
teardown fails partway the call fails with 500 and the bookkeeping entry is
not removed, so a retried delete of the same name can still succeed. -/
theorem delete_contract (n : String) (out : DestroyOutcome) (st : EngineState) :
    (st.find n = none →
      delete_handler n out st =
        (⟨404, .errorText ("Stack " ++ n ++ " does not exist")⟩, st)) ∧
    ((st.find n).isSome → out = .concurrent →
      (delete_handler n out st).1.status = 409 ∧
      (delete_handler n out st).2 = st) ∧
    ((st.find n).isSome → ∀ m, out = .enginefail m →
      (delete_handler n out st).1.status = 500 ∧
      (delete_handler n out st).2 = st ∧
      (delete_handler n .ok (delete_handler n out st).2).1.status = 200) := by
  refine ⟨?_, ?_, ?_⟩
  · intro habs
    simp [delete_handler, delete_run, select_stack, habs]
  · intro hex ho
    obtain ⟨r, hr⟩ := Option.isSome_iff_exists.mp hex
    subst ho
    simp [delete_handler, delete_run, select_stack, stack_destroy, hr]
  · intro hex m ho
    obtain ⟨r, hr⟩ := Option.isSome_iff_exists.mp hex
    subst ho
    simp [delete_handler, delete_run, select_stack, stack_destroy, remove_stack,
      hr, EngineError.msg]

theorem delete_contract_witness :
    (delete_handler "ghost" .ok ⟨[]⟩ =
      (⟨404, .errorText ("Stack " ++ "ghost" ++ " does not exist")⟩, ⟨[]⟩)) ∧
    ((delete_handler "alice" .concurrent ⟨[⟨"alice", [], []⟩]⟩).1.status = 409 ∧
      (delete_handler "alice" .concurrent ⟨[⟨"alice", [], []⟩]⟩).2 =
        ⟨[⟨"alice", [], []⟩]⟩) ∧
    ((delete_handler "alice" (.enginefail "partial") ⟨[⟨"alice", [], []⟩]⟩).1.status
        = 500 ∧
      (delete_handler "alice" (.enginefail "partial") ⟨[⟨"alice", [], []⟩]⟩).2 =
        ⟨[⟨"alice", [], []⟩]⟩ ∧
      (delete_handler "alice" .ok
        (delete_handler "alice" (.enginefail "partial")
          ⟨[⟨"alice", [], []⟩]⟩).2).1.status = 200) :=
  ⟨(delete_contract "ghost" .ok ⟨[]⟩).1 rfl,
   (delete_contract "alice" .concurrent ⟨[⟨"alice", [], []⟩]⟩).2.1 (by decide) rfl,
   (delete_contract "alice" (.enginefail "partial") ⟨[⟨"alice", [], []⟩]⟩).2.2
      (by decide) "partial" rfl⟩

/-- C3: a successful create of a fresh name followed by a second create of
the same name makes the second call fail with a 409 conflict, whatever the
engine would have done for it, and leaves the engine state (in particular the
first stack's outputs) unchanged. -/
theorem create_then_create_conflict (n : String) (u u' : Option String)
    (url : String) (up' : UpOutcome) (st : EngineState)
    (hn : n ≠ "") (habs : st.find n = none) :
    (create_handler ⟨some n, u⟩ (.ok url) st).1 = ⟨200, .site n url⟩ ∧
    (create_handler ⟨some n, u'⟩ up'
        (create_handler ⟨some n, u⟩ (.ok url) st).2).1.status = 409 ∧
    (create_handler ⟨some n, u'⟩ up'
        (create_handler ⟨some n, u⟩ (.ok url) st).2).2 =
      (create_handler ⟨some n, u⟩ (.ok url) st).2 := by
  have h1 := create_handler_success n u url st hn habs
  have hfind := find_after_create n u url st hn habs
  refine ⟨by rw [h1], ?_, ?_⟩ <;>
  · generalize hG : (create_handler ⟨some n, u⟩ (.ok url) st).2 = st1
    rw [hG] at hfind
    simp [create_handler, create_run, create_stack, hn, hfind]

theorem create_then_create_conflict_witness :
    (create_handler ⟨some "alice", some "a"⟩ (.ok "http://web") ⟨[]⟩).1 =
      ⟨200, .site "alice" "http://web"⟩ ∧
    (create_handler ⟨some "alice", some "b"⟩ (.ok "http://other")
        (create_handler ⟨some "alice", some "a"⟩ (.ok "http://web") ⟨[]⟩).2).1.status
      = 409 ∧
    (create_handler ⟨some "alice", some "b"⟩ (.ok "http://other")
        (create_handler ⟨some "alice", some "a"⟩ (.ok "http://web") ⟨[]⟩).2).2 =
      (create_handler ⟨some "alice", some "a"⟩ (.ok "http://web") ⟨[]⟩).2 :=
  create_then_create_conflict "alice" (some "a") (some "b") "http://web"
    (.ok "http://other") ⟨[]⟩ (by decide) rfl

/-- C4: a successful create of a fresh name followed by a get of the same
name returns the same url from both calls: the `website_url` output computed
by the apply step. -/
theorem create_then_get_same_url (n : String) (u : Option String) (url : String)
    (st : EngineState) (hn : n ≠ "") (habs : st.find n = none) :
    (create_handler ⟨some n, u⟩ (.ok url) st).1 = ⟨200, .site n url⟩ ∧
    (get_handler n none (create_handler ⟨some n, u⟩ (.ok url) st).2).1 =
      ⟨200, .site n url⟩ := by
  have h1 := create_handler_success n u url st hn habs
  have hfind := find_after_create n u url st hn habs
  refine ⟨by rw [h1], ?_⟩
  simp [get_handler, get_run, select_stack, stack_outputs, hfind, lookupOutput]

theorem create_then_get_same_url_witness :
    (create_handler ⟨some "alice", some "a"⟩ (.ok "http://web") ⟨[]⟩).1 =
      ⟨200, .site "alice" "http://web"⟩ ∧
    (get_handler "alice" none
        (create_handler ⟨some "alice", some "a"⟩ (.ok "http://web") ⟨[]⟩).2).1 =
      ⟨200, .site "alice" "http://web"⟩ :=
  create_then_get_same_url "alice" (some "a") "http://web" ⟨[]⟩ (by decide) rfl

/-- C5: a successful delete tears the stack down and removes its bookkeeping
entry: afterwards the engine holds no record for the name, a get of the name
fails with 404 NotFound, and a subsequent create of the same name succeeds
(the name is free for reuse). -/
theorem delete_then_get_then_create (n : String) (st : EngineState)
    (hn : n ≠ "") (hex : (st.find n).isSome) (fault : Option String)
    (u : Option String) (url : String) :
    (delete_handler n .ok st).1.status = 200 ∧
    ((delete_handler n .ok st).2).find n = none ∧
    (get_handler n fault (delete_handler n .ok st).2).1.status = 404 ∧
    (create_handler ⟨some n, u⟩ (.ok url) (delete_handler n .ok st).2).1 =
      ⟨200, .site n url⟩ := by
  obtain ⟨r, hr⟩ := Option.isSome_iff_exists.mp hex
  have hdel : delete_handler n .ok st =
      (⟨200, .message ("Stack " ++ n ++ " resources successfully removed!")⟩,
       ⟨removeAllStack n
          (updateStack n (fun r => { r with outputs := [] }) st.records)⟩) := by
    simp [delete_handler, delete_run, select_stack, stack_destroy, remove_stack, hr]
  have hgone : ((delete_handler n .ok st).2).find n = none := by
    rw [hdel]
    exact findStack_removeAllStack_self n _
  refine ⟨by rw [hdel], hgone, ?_, ?_⟩
  · simp [get_handler, get_run, select_stack, hgone]
  · rw [create_handler_success n u url _ hn hgone]

theorem delete_then_get_then_create_witness :
    (delete_handler "alice" .ok ⟨[⟨"alice", [], [("website_url", "http://web")]⟩]⟩).1.status
      = 200 ∧
    ((delete_handler "alice" .ok
        ⟨[⟨"alice", [], [("website_url", "http://web")]⟩]⟩).2).find "alice" = none ∧
    (get_handler "alice" none
        (delete_handler "alice" .ok
          ⟨[⟨"alice", [], [("website_url", "http://web")]⟩]⟩).2).1.status = 404 ∧
    (create_handler ⟨some "alice", some "a"⟩ (.ok "http://new")
        (delete_handler "alice" .ok
          ⟨[⟨"alice", [], [("website_url", "http://web")]⟩]⟩).2).1 =
      ⟨200, .site "alice" "http://new"⟩ :=
  delete_then_get_then_create "alice"
    ⟨[⟨"alice", [], [("website_url", "http://web")]⟩]⟩ (by decide) (by decide)
    none (some "a") "http://new"

/-- C10: create is not atomic on mid-apply failure: when the apply step fails
after the stack record was created, create returns a 500 internal failure yet
the record is not removed, so a retried create of the same name fails with a
409 conflict rather than succeeding, and a get of the name does not report
404 NotFound (it reaches a 500 instead, whatever read outcome is injected). -/
theorem create_not_atomic (n : String) (u u' : Option String) (m : String)
    (st : EngineState) (hn : n ≠ "") (habs : st.find n = none)
    (up' : UpOutcome) (fault : Option String) :
    (create_handler ⟨some n, u⟩ (.enginefail m) st).1.status = 500 ∧
    (((create_handler ⟨some n, u⟩ (.enginefail m) st).2).find n).isSome ∧
    (create_handler ⟨some n, u'⟩ up'
        (create_handler ⟨some n, u⟩ (.enginefail m) st).2).1.status = 409 ∧
    (get_handler n fault
        (create_handler ⟨some n, u⟩ (.enginefail m) st).2).1.status ≠ 404 ∧
    (get_handler n fault
        (create_handler ⟨some n, u⟩ (.enginefail m) st).2).1.status = 500 := by
  have hfail : create_handler ⟨some n, u⟩ (.enginefail m) st =
      (⟨500, .errorText m⟩,
       ⟨updateStack n
          (fun r => { r with config := r.config ++ [("aws:region", "us-west-2")] })
          (st.records ++ [⟨n, [], []⟩])⟩) := by
    simp [create_handler, create_run, create_stack, set_config, stack_up, habs, hn,
      EngineError.msg]
  have hfind : ((create_handler ⟨some n, u⟩ (.enginefail m) st).2).find n =
      some ⟨n, [("aws:region", "us-west-2")], []⟩ := by
    rw [hfail]
    have hfind0 : findStack n st.records = none := habs
    simp [EngineState.find, findStack_updateStack,
      findStack_append n st.records _ hfind0, findStack]
  have hget : (get_handler n fault
      (create_handler ⟨some n, u⟩ (.enginefail m) st).2).1.status = 500 := by
    cases fault with
    | none =>
      simp [get_handler, get_run, select_stack, stack_outputs, hfind, lookupOutput]
    | some fm =>
      simp [get_handler, get_run, select_stack, stack_outputs, hfind,
        EngineError.msg]
  have hretry : (create_handler ⟨some n, u'⟩ up'
      (create_handler ⟨some n, u⟩ (.enginefail m) st).2).1.status = 409 := by
    generalize hG : (create_handler ⟨some n, u⟩ (.enginefail m) st).2 = st1
    rw [hG] at hfind
    simp [create_handler, create_run, create_stack, hn, hfind]
  exact ⟨by rw [hfail], by rw [hfind]; rfl, hretry, by rw [hget]; decide, hget⟩

theorem create_not_atomic_witness :
    (create_handler ⟨some "alice", some "a"⟩ (.enginefail "cloud error") ⟨[]⟩).1.status
      = 500 ∧
    (((create_handler ⟨some "alice", some "a"⟩ (.enginefail "cloud error")
        ⟨[]⟩).2).find "alice").isSome ∧
    (create_handler ⟨some "alice", some "a"⟩ (.ok "http://web")
        (create_handler ⟨some "alice", some "a"⟩ (.enginefail "cloud error")
          ⟨[]⟩).2).1.status = 409 ∧
    (get_handler "alice" none
        (create_handler ⟨some "alice", some "a"⟩ (.enginefail "cloud error")
          ⟨[]⟩).2).1.status ≠ 404 ∧
    (get_handler "alice" none
        (create_handler ⟨some "alice", some "a"⟩ (.enginefail "cloud error")
          ⟨[]⟩).2).1.status = 500 :=
  create_not_atomic "alice" (some "a") (some "a") "cloud error" ⟨[]⟩ (by decide)
    rfl (.ok "http://web") none

/-- C7: list returns exactly the names of the stacks currently held by the
engine; in particular, after creating three fresh stacks a, b, c and deleting
b, list returns (as a set, no ordering guarantee) exactly a and c. -/
theorem list_contract (a b c : String) (ua ub uc : Option String)
    (urla urlb urlc : String)
    (ha : a ≠ "") (hb : b ≠ "") (hc : c ≠ "")
    (hab : a ≠ b) (hac : a ≠ c) (hbc : b ≠ c) :
    (∀ st : EngineState, list_handler none st = ⟨200, .ids (list_stacks st)⟩) ∧
    (∀ x, x ∈ list_stacks
        ((delete_handler b .ok
          ((create_handler ⟨some c, uc⟩ (.ok urlc)
            ((create_handler ⟨some b, ub⟩ (.ok urlb)
              ((create_handler ⟨some a, ua⟩ (.ok urla)
                ⟨[]⟩).2)).2)).2)).2) ↔ (x = a ∨ x = c)) := by
  have h1 : (create_handler ⟨some a, ua⟩ (.ok urla) (⟨[]⟩ : EngineState)).2 =
      ⟨[⟨a, [("aws:region", "us-west-2")], [("website_url", urla)]⟩]⟩ := by
    rw [create_handler_success a ua urla ⟨[]⟩ ha rfl]
    simp [updateStack]
  have h2 : (create_handler ⟨some b, ub⟩ (.ok urlb)
      ((create_handler ⟨some a, ua⟩ (.ok urla) (⟨[]⟩ : EngineState)).2)).2 =
      ⟨[⟨a, [("aws:region", "us-west-2")], [("website_url", urla)]⟩,
        ⟨b, [("aws:region", "us-west-2")], [("website_url", urlb)]⟩]⟩ := by
    rw [h1, create_handler_success b ub urlb _ hb
      (by simp [EngineState.find, findStack, hab])]
    simp [updateStack, hab]
  have h3 : (create_handler ⟨some c, uc⟩ (.ok urlc)
      ((create_handler ⟨some b, ub⟩ (.ok urlb)
        ((create_handler ⟨some a, ua⟩ (.ok urla) (⟨[]⟩ : EngineState)).2)).2)).2 =
      ⟨[⟨a, [("aws:region", "us-west-2")], [("website_url", urla)]⟩,
        ⟨b, [("aws:region", "us-west-2")], [("website_url", urlb)]⟩,
        ⟨c, [("aws:region", "us-west-2")], [("website_url", urlc)]⟩]⟩ := by
    rw [h2, create_handler_success c uc urlc _ hc
      (by simp [EngineState.find, findStack, hac, hbc])]
    simp [updateStack, hac, hbc]
  refine ⟨fun st => rfl, ?_⟩
  intro x
  rw [h3]
  simp [delete_handler, delete_run, select_stack, stack_destroy, remove_stack,
    EngineState.find, findStack, updateStack, removeAllStack, list_stacks,
    hab, hbc, Ne.symm hab, Ne.symm hbc]

theorem list_contract_witness :
    "a" ∈ list_stacks
        ((delete_handler "b" .ok
          ((create_handler ⟨some "c", some "w"⟩ (.ok "http://c")
            ((create_handler ⟨some "b", some "v"⟩ (.ok "http://b")
              ((create_handler ⟨some "a", some "u"⟩ (.ok "http://a")
                ⟨[]⟩).2)).2)).2)).2) ↔ ("a" = "a" ∨ "a" = "c") :=
  (list_contract "a" "b" "c" (some "u") (some "v") (some "w")
    "http://a" "http://b" "http://c" (by decide) (by decide) (by decide)
    (by decide) (by decide) (by decide)).2 "a"

end Geostacks
